import Mathlib

attribute [local semireducible] Rat.add Rat.mul Rat.sub Rat.inv

/-!
Verification of the cruise-control simulation core.

The program under study is a discrete-time closed-loop speed-control
simulation: a PID controller with output saturation and anti-windup,
a first-order actuator (engine) model, a first-order plant (vehicle)
model, and a time-stepping loop that composes them and logs one trace
record per step.

The embedding below mirrors the Python class CruiseControlSystem.
The mutable object state (the Python self) is a single structure
holding both the configuration attributes and the mutable state
attributes; each method becomes a function returning the produced
value together with the updated structure.  Real arithmetic is
modelled with the rationals, which makes every definition executable.
-/

/-- The Python object self of class CruiseControlSystem: configuration
attributes followed by the mutable state attributes set by reset_states. -/
@[ext]
structure CruiseControlSystem where
  m : ℚ
  b : ℚ
  Kv : ℚ
  tau_engine : ℚ
  v_desired : ℚ
  Kp : ℚ
  Ki : ℚ
  Kd : ℚ
  throttle_max : ℚ
  throttle_min : ℚ
  dt : ℚ
  T_sim : ℚ
  v_current : ℚ
  throttle : ℚ
  error_integral : ℚ
  error_prev : ℚ
  engine_state : ℚ
  vehicle_state : ℚ
deriving DecidableEq

/-- The system as built by the constructor: the hard-coded parameter
values, with all state attributes reset to zero (the constructor calls
reset_states). -/
def initSystem : CruiseControlSystem :=
  { m := 1000, b := 50, Kv := 500, tau_engine := 1/2, v_desired := 29,
    Kp := 800, Ki := 40, Kd := 40,
    throttle_max := 1, throttle_min := 0,
    dt := 1/100, T_sim := 100,
    v_current := 0, throttle := 0, error_integral := 0, error_prev := 0,
    engine_state := 0, vehicle_state := 0 }

/-- Method reset_states: sets every state attribute to zero, leaving
the configuration attributes untouched. -/
def reset_states (sys : CruiseControlSystem) : CruiseControlSystem :=
  { sys with v_current := 0, throttle := 0, error_integral := 0,
             error_prev := 0, engine_state := 0, vehicle_state := 0 }

/-- The numpy clip function: clip x lo hi = min (max x lo) hi. -/
def clip (x lo hi : ℚ) : ℚ := min (max x lo) hi

/-- Method pid_controller: proportional, integral (accumulated first),
derivative (previous error updated), saturation by clip, then the
anti-windup rollback of the integral when the clipped signal sits at or
beyond a bound.  Returns the clipped control signal and the updated
object. -/
def pid_controller (sys : CruiseControlSystem) (error : ℚ) :
    ℚ × CruiseControlSystem :=
  let p_term := sys.Kp * error
  let error_integral1 := sys.error_integral + error * sys.dt
  let i_term := sys.Ki * error_integral1
  let d_term := sys.Kd * (error - sys.error_prev) / sys.dt
  let control_raw := p_term + i_term + d_term
  let control_signal := clip control_raw sys.throttle_min sys.throttle_max
  let error_integral2 :=
    if sys.throttle_max ≤ control_signal ∨ control_signal ≤ sys.throttle_min
    then error_integral1 - error * sys.dt
    else error_integral1
  (control_signal,
    { sys with error_integral := error_integral2, error_prev := error })

/-- The raw (pre-saturation) PID command p_term + i_term + d_term
computed by pid_controller from the incoming state. -/
def pid_raw (sys : CruiseControlSystem) (error : ℚ) : ℚ :=
  sys.Kp * error + sys.Ki * (sys.error_integral + error * sys.dt)
    + sys.Kd * (error - sys.error_prev) / sys.dt

/-- The derivative term of pid_controller, from the incoming state. -/
def pid_d_term (sys : CruiseControlSystem) (error : ℚ) : ℚ :=
  sys.Kd * (error - sys.error_prev) / sys.dt

/-- Method engine_model: explicit Euler step of the first-order engine
lag.  Returns the new engine state and the updated object. -/
def engine_model (sys : CruiseControlSystem) (throttle_input : ℚ) :
    ℚ × CruiseControlSystem :=
  let force_command := sys.Kv * throttle_input
  let engine_state1 :=
    sys.engine_state
      + (force_command - sys.engine_state) * sys.dt / sys.tau_engine
  (engine_state1, { sys with engine_state := engine_state1 })

/-- Method vehicle_model: explicit Euler step of the vehicle dynamics
with linear drag and an additive disturbance force.  Returns the new
velocity and the updated object. -/
def vehicle_model (sys : CruiseControlSystem)
    (engine_force disturbance_force : ℚ) : ℚ × CruiseControlSystem :=
  let total_force := engine_force - sys.b * sys.v_current + disturbance_force
  let acceleration := total_force / sys.m
  let v_current1 := sys.v_current + acceleration * sys.dt
  (v_current1, { sys with v_current := v_current1 })

/-- The disturbance accumulation loop of simulate: dist_force starts at
zero and each function of the collection adds its value at time t.  An
empty collection (or the Python None default) contributes zero. -/
def dist_force (disturbances : List (ℚ → ℚ)) (t : ℚ) : ℚ :=
  disturbances.foldl (fun acc f => acc + f t) 0

/-- Length of the numpy arange(0, T_sim, dt) time vector for a nonzero
step: in exact arithmetic the ceiling of T_sim / dt, taken at zero when
negative.  The zero-step branch is a placeholder value only: there
numpy raises ZeroDivisionError instead of building any grid, an error
path modelled separately by simulateE below. -/
def n_steps (T_sim dt : ℚ) : ℕ :=
  if dt = 0 then 0 else (⌈T_sim / dt⌉).toNat

/-- The arange(0, T_sim, dt) grid itself: point i is i * dt. -/
def timeGrid (T_sim dt : ℚ) : List ℚ :=
  (List.range (n_steps T_sim dt)).map (fun i : ℕ => (i : ℚ) * dt)

/-- One row of the logged simulation output: the per-index entries of
the arrays time, speed, throttle, error, force and reference returned
by simulate. -/
structure TraceRecord where
  time : ℚ
  speed : ℚ
  throttle : ℚ
  error : ℚ
  force : ℚ
  reference : ℚ
deriving DecidableEq

/-- One iteration of the simulate loop at grid time t: evaluate the
reference, form the error, run the PID, the engine and the vehicle
(with the summed disturbance force), and log a trace record.  The
reference is modelled as a function of time; a constant reference is
the constant function. -/
def simStep (reference_speed : ℚ → ℚ) (disturbances : List (ℚ → ℚ))
    (sys : CruiseControlSystem) (t : ℚ) :
    TraceRecord × CruiseControlSystem :=
  let v_ref := reference_speed t
  let error := v_ref - sys.v_current
  let pres := pid_controller sys error
  let eres := engine_model pres.2 pres.1
  let dforce := dist_force disturbances t
  let vres := vehicle_model eres.2 eres.1 dforce
  ({ time := t, speed := vres.1, throttle := pres.1, error := error,
     force := eres.1, reference := v_ref }, vres.2)

/-- The simulate loop over a list of grid times, threading the object
state from each step into the next and collecting the trace records in
order. -/
def runSteps (reference_speed : ℚ → ℚ) (disturbances : List (ℚ → ℚ)) :
    CruiseControlSystem → List ℚ → List TraceRecord
  | _, [] => []
  | sys, t :: ts =>
    let r := simStep reference_speed disturbances sys t
    r.1 :: runSteps reference_speed disturbances r.2 ts

/-- Method simulate on its non-raising paths (dt nonzero): build the
arange time grid, reset all state, then run the loop.  Returns the
ordered sequence of trace records.  The zero-step numpy failure is
modelled by simulateE below. -/
def simulate (sys : CruiseControlSystem) (reference_speed : ℚ → ℚ)
    (disturbances : List (ℚ → ℚ)) : List TraceRecord :=
  runSteps reference_speed disturbances (reset_states sys)
    (timeGrid sys.T_sim sys.dt)

/-- The one exception the simulate method can hit before its loop:
numpy arange raises ZeroDivisionError on a zero step. -/
inductive SimError where
  | zeroDivisionError

/-- Method simulate with its error path included: with a zero time step
the arange call raises ZeroDivisionError at once, before reset_states
and before any loop iteration, so no record is produced and no state is
touched; with a nonzero step the run is the total simulate above. -/
def simulateE (sys : CruiseControlSystem) (reference_speed : ℚ → ℚ)
    (disturbances : List (ℚ → ℚ)) : Except SimError (List TraceRecord) :=
  if sys.dt = 0 then Except.error SimError.zeroDivisionError
  else Except.ok (simulate sys reference_speed disturbances)

/-- Iterated pid_controller calls on a list of errors, keeping only the
final object state. -/
def pid_steps (sys : CruiseControlSystem) : List ℚ → CruiseControlSystem
  | [] => sys
  | e :: es => pid_steps (pid_controller sys e).2 es

/-- Boolean check that every call of the iteration in pid_steps has a
saturated raw command (at or beyond a throttle bound). -/
def allSaturatedB (sys : CruiseControlSystem) : List ℚ → Bool
  | [] => true
  | e :: es =>
    (decide (sys.throttle_max ≤ pid_raw sys e)
      || decide (pid_raw sys e ≤ sys.throttle_min))
    && allSaturatedB (pid_controller sys e).2 es

/-- Two objects agree on every configuration attribute (they may differ
on the mutable state attributes). -/
def sameParams (s1 s2 : CruiseControlSystem) : Prop :=
  s1.m = s2.m ∧ s1.b = s2.b ∧ s1.Kv = s2.Kv ∧ s1.tau_engine = s2.tau_engine ∧
  s1.v_desired = s2.v_desired ∧ s1.Kp = s2.Kp ∧ s1.Ki = s2.Ki ∧
  s1.Kd = s2.Kd ∧ s1.throttle_max = s2.throttle_max ∧
  s1.throttle_min = s2.throttle_min ∧ s1.dt = s2.dt ∧ s1.T_sim = s2.T_sim

instance (s1 s2 : CruiseControlSystem) : Decidable (sameParams s1 s2) := by
  unfold sameParams
  infer_instance

/-- A system tuned so that the raw command stays strictly inside the
throttle bounds at error one: only a small proportional gain. -/
def sysC3 : CruiseControlSystem :=
  { initSystem with Kp := 1/2, Ki := 0, Kd := 0 }

/-- A configuration whose duration is not an integer multiple of the
time step: T_sim = 1, dt = 2/5. -/
def sysC4 : CruiseControlSystem :=
  { initSystem with T_sim := 1, dt := 2/5 }

/-- A configuration violating the mass invariant (m below zero), with a
short horizon of two steps. -/
def sysC5 : CruiseControlSystem :=
  { initSystem with m := -1, T_sim := 1/50 }

/-- The default system with dirty state attributes, as left behind by a
previous run: same configuration as initSystem, different state. -/
def sysC8 : CruiseControlSystem :=
  { initSystem with v_current := 5, error_integral := 7, engine_state := -3 }

/-- A configuration with a zero time step, on which the arange call of
simulate raises. -/
def sysC5z : CruiseControlSystem :=
  { initSystem with dt := 0 }

/-! Helper lemmas about clip and the pid_controller projections. -/

theorem clip_le_hi (x lo hi : ℚ) : clip x lo hi ≤ hi := min_le_right _ _

theorem lo_le_clip (x lo hi : ℚ) (h : lo ≤ hi) : lo ≤ clip x lo hi :=
  le_min (le_max_right _ _) h

theorem clip_sat_hi (x lo hi : ℚ) (h : hi ≤ x) : hi ≤ clip x lo hi :=
  le_min (le_trans h (le_max_left _ _)) le_rfl

theorem clip_sat_lo (x lo hi : ℚ) (h : x ≤ lo) : clip x lo hi ≤ lo :=
  le_trans (min_le_left _ _) (max_le h le_rfl)

theorem pid_controller_fst (sys : CruiseControlSystem) (e : ℚ) :
    (pid_controller sys e).1
      = clip (pid_raw sys e) sys.throttle_min sys.throttle_max := rfl

theorem pid_controller_integral (sys : CruiseControlSystem) (e : ℚ) :
    (pid_controller sys e).2.error_integral
      = if sys.throttle_max ≤ clip (pid_raw sys e) sys.throttle_min sys.throttle_max
          ∨ clip (pid_raw sys e) sys.throttle_min sys.throttle_max ≤ sys.throttle_min
        then sys.error_integral + e * sys.dt - e * sys.dt
        else sys.error_integral + e * sys.dt := rfl

theorem pid_rollback (sys : CruiseControlSystem) (e : ℚ)
    (h : sys.throttle_max ≤ pid_raw sys e ∨ pid_raw sys e ≤ sys.throttle_min) :
    (pid_controller sys e).2.error_integral = sys.error_integral := by
  have hc : sys.throttle_max ≤ clip (pid_raw sys e) sys.throttle_min sys.throttle_max
      ∨ clip (pid_raw sys e) sys.throttle_min sys.throttle_max ≤ sys.throttle_min :=
    h.imp (clip_sat_hi _ _ _) (clip_sat_lo _ _ _)
  rw [pid_controller_integral, if_pos hc]
  ring

theorem pid_steps_saturated (es : List ℚ) :
    ∀ sys : CruiseControlSystem, allSaturatedB sys es = true →
      (pid_steps sys es).error_integral = sys.error_integral := by
  induction es with
  | nil => intro sys _; rfl
  | cons e es ih =>
    intro sys h
    simp only [allSaturatedB, Bool.and_eq_true, Bool.or_eq_true,
      decide_eq_true_eq] at h
    have h2 := ih (pid_controller sys e).2 h.2
    simp only [pid_steps]
    rw [h2, pid_rollback sys e h.1]

/-! Helper lemmas about one simulation step and the stepping loop. -/

theorem simStep_time (ref : ℚ → ℚ) (d : List (ℚ → ℚ))
    (sys : CruiseControlSystem) (t : ℚ) : (simStep ref d sys t).1.time = t := rfl

theorem simStep_throttle (ref : ℚ → ℚ) (d : List (ℚ → ℚ))
    (sys : CruiseControlSystem) (t : ℚ) :
    (simStep ref d sys t).1.throttle
      = (pid_controller sys (ref t - sys.v_current)).1 := rfl

theorem simStep_min (ref : ℚ → ℚ) (d : List (ℚ → ℚ))
    (sys : CruiseControlSystem) (t : ℚ) :
    (simStep ref d sys t).2.throttle_min = sys.throttle_min := rfl

theorem simStep_max (ref : ℚ → ℚ) (d : List (ℚ → ℚ))
    (sys : CruiseControlSystem) (t : ℚ) :
    (simStep ref d sys t).2.throttle_max = sys.throttle_max := rfl

theorem runSteps_throttle_mem (ref : ℚ → ℚ) (d : List (ℚ → ℚ)) (ts : List ℚ) :
    ∀ sys : CruiseControlSystem, sys.throttle_min ≤ sys.throttle_max →
      ∀ r ∈ runSteps ref d sys ts,
        sys.throttle_min ≤ r.throttle ∧ r.throttle ≤ sys.throttle_max := by
  induction ts with
  | nil => intro sys _ r hr; simp [runSteps] at hr
  | cons t ts ih =>
    intro sys hb r hr
    simp only [runSteps, List.mem_cons] at hr
    rcases hr with rfl | hr
    · rw [simStep_throttle, pid_controller_fst]
      exact ⟨lo_le_clip _ _ _ hb, clip_le_hi _ _ _⟩
    · exact ih (simStep ref d sys t).2 hb r hr

theorem runSteps_map_time (ref : ℚ → ℚ) (d : List (ℚ → ℚ)) (ts : List ℚ) :
    ∀ sys : CruiseControlSystem,
      (runSteps ref d sys ts).map TraceRecord.time = ts := by
  induction ts with
  | nil => intro sys; rfl
  | cons t ts ih =>
    intro sys
    simp only [runSteps, List.map_cons, simStep_time, ih]

theorem runSteps_length (ref : ℚ → ℚ) (d : List (ℚ → ℚ)) (ts : List ℚ)
    (sys : CruiseControlSystem) : (runSteps ref d sys ts).length = ts.length := by
  have h := congrArg List.length (runSteps_map_time ref d ts sys)
  simpa using h

theorem simulate_length (sys : CruiseControlSystem) (ref : ℚ → ℚ)
    (d : List (ℚ → ℚ)) :
    (simulate sys ref d).length = n_steps sys.T_sim sys.dt := by
  unfold simulate
  rw [runSteps_length]
  simp [timeGrid]

/-! The claims. -/

/-- Claim C1: for every call to pid_controller with any error and any
gains, and for every record produced by a simulation run, the returned
control command lies within the configured bounds, throttle_min up to
throttle_max, assuming throttle_min < throttle_max. -/
theorem C1_saturation_bound (sys : CruiseControlSystem)
    (reference_speed : ℚ → ℚ) (disturbances : List (ℚ → ℚ))
    (h : sys.throttle_min < sys.throttle_max) :
    (∀ error : ℚ, sys.throttle_min ≤ (pid_controller sys error).1 ∧
      (pid_controller sys error).1 ≤ sys.throttle_max) ∧
    ∀ r ∈ simulate sys reference_speed disturbances,
      sys.throttle_min ≤ r.throttle ∧ r.throttle ≤ sys.throttle_max := by
  constructor
  · intro e
    rw [pid_controller_fst]
    exact ⟨lo_le_clip _ _ _ h.le, clip_le_hi _ _ _⟩
  · intro r hr
    exact runSteps_throttle_mem reference_speed disturbances
      (timeGrid sys.T_sim sys.dt) (reset_states sys) h.le r hr

/-- Witness for C1 at the default system and error one. -/
theorem C1_saturation_bound_witness :
    initSystem.throttle_min ≤ (pid_controller initSystem 1).1 ∧
    (pid_controller initSystem 1).1 ≤ initSystem.throttle_max :=
  (C1_saturation_bound initSystem (fun _ => (29 : ℚ)) [] (by decide)).1 1

/-- Claim C2: if the raw command of a pid_controller call is at or
beyond a throttle bound, the integration of that call is rolled back,
so error_integral is unchanged; consequently over consecutive saturated
calls with Ki positive the magnitude of error_integral does not
increase. -/
theorem C2_anti_windup (sys : CruiseControlSystem) (error : ℚ)
    (errors : List ℚ) (hKi : 0 < sys.Ki) :
    ((sys.throttle_max ≤ pid_raw sys error ∨
        pid_raw sys error ≤ sys.throttle_min) →
      (pid_controller sys error).2.error_integral = sys.error_integral) ∧
    (allSaturatedB sys errors = true →
      |(pid_steps sys errors).error_integral| ≤ |sys.error_integral|) := by
  refine ⟨pid_rollback sys error, fun h => ?_⟩
  rw [pid_steps_saturated errors sys h]

/-- Witness for C2: the default system saturates at error one, twice in
a row, and the accumulator stays at its initial value. -/
theorem C2_anti_windup_witness :
    (pid_controller initSystem 1).2.error_integral
      = initSystem.error_integral ∧
    |(pid_steps initSystem [1, 1]).error_integral|
      ≤ |initSystem.error_integral| :=
  ⟨(C2_anti_windup initSystem 1 [1, 1] (by decide)).1 (Or.inl (by decide)),
   (C2_anti_windup initSystem 1 [1, 1] (by decide)).2 (by decide)⟩

/-- Claim C3: when the raw command is strictly inside the bounds and dt
is positive, pid_controller returns Kp e + Ki (I + e dt) + Kd (e -
prev) / dt, stores I + e dt in error_integral and e in error_prev. -/
theorem C3_unsaturated_update (sys : CruiseControlSystem) (error : ℚ)
    (hdt : 0 < sys.dt)
    (h1 : sys.throttle_min < pid_raw sys error)
    (h2 : pid_raw sys error < sys.throttle_max) :
    (pid_controller sys error).1
      = sys.Kp * error + sys.Ki * (sys.error_integral + error * sys.dt)
        + sys.Kd * (error - sys.error_prev) / sys.dt ∧
    (pid_controller sys error).2.error_integral
      = sys.error_integral + error * sys.dt ∧
    (pid_controller sys error).2.error_prev = error := by
  have hclip : clip (pid_raw sys error) sys.throttle_min sys.throttle_max
      = pid_raw sys error := by
    unfold clip
    rw [max_eq_left h1.le, min_eq_left h2.le]
  refine ⟨by rw [pid_controller_fst, hclip]; rfl, ?_, rfl⟩
  have hnot : ¬(sys.throttle_max ≤ clip (pid_raw sys error) sys.throttle_min
      sys.throttle_max ∨ clip (pid_raw sys error) sys.throttle_min
      sys.throttle_max ≤ sys.throttle_min) := by
    rw [hclip]
    rintro (hc | hc)
    · exact absurd hc (not_le.mpr h2)
    · exact absurd hc (not_le.mpr h1)
  rw [pid_controller_integral, if_neg hnot]

/-- Witness for C3 at a softly tuned system and error one. -/
theorem C3_unsaturated_update_witness :
    (pid_controller sysC3 1).1
      = sysC3.Kp * 1 + sysC3.Ki * (sysC3.error_integral + 1 * sysC3.dt)
        + sysC3.Kd * (1 - sysC3.error_prev) / sysC3.dt ∧
    (pid_controller sysC3 1).2.error_integral
      = sysC3.error_integral + 1 * sysC3.dt ∧
    (pid_controller sysC3 1).2.error_prev = 1 :=
  C3_unsaturated_update sysC3 1 (by decide) (by decide) (by decide)

/-- Counterexample to claim C4: with T_sim = 1 and dt = 2/5 (both
positive) the run produces three records, while the floor of T over dt
is two, so the output length is not the floor of T over dt. -/
theorem C4_floor_counterexample :
    0 < sysC4.dt ∧ 0 < sysC4.T_sim ∧
    ⌊sysC4.T_sim / sysC4.dt⌋ = 2 ∧
    (simulate sysC4 (fun _ => sysC4.v_desired) []).length = 3 ∧
    (simulate sysC4 (fun _ => sysC4.v_desired) []).length
      ≠ (⌊sysC4.T_sim / sysC4.dt⌋).toNat :=
  ⟨by decide, by decide, by decide, by decide, by decide⟩

/-- Claim C4 as amended: for dt and T_sim positive the output is an
ordered sequence of exactly the ceiling of T_sim over dt records,
record i carrying grid time i times dt, in increasing order of i (the
ceiling equals the floor exactly when dt divides T_sim). -/
theorem C4_grid (sys : CruiseControlSystem) (reference_speed : ℚ → ℚ)
    (disturbances : List (ℚ → ℚ)) (hdt : 0 < sys.dt) (hT : 0 < sys.T_sim) :
    (simulate sys reference_speed disturbances).length
      = (⌈sys.T_sim / sys.dt⌉).toNat ∧
    (simulate sys reference_speed disturbances).map TraceRecord.time
      = (List.range (⌈sys.T_sim / sys.dt⌉).toNat).map
          (fun i : ℕ => (i : ℚ) * sys.dt) := by
  have hn : n_steps sys.T_sim sys.dt = (⌈sys.T_sim / sys.dt⌉).toNat := by
    unfold n_steps
    rw [if_neg (ne_of_gt hdt)]
  constructor
  · rw [simulate_length, hn]
  · unfold simulate
    rw [runSteps_map_time]
    unfold timeGrid
    rw [hn]

/-- Witness for the amended C4 at the T_sim = 1, dt = 2/5 system. -/
theorem C4_grid_witness :
    (simulate sysC4 (fun _ => (29 : ℚ)) []).length
      = (⌈sysC4.T_sim / sysC4.dt⌉).toNat ∧
    (simulate sysC4 (fun _ => (29 : ℚ)) []).map TraceRecord.time
      = (List.range (⌈sysC4.T_sim / sysC4.dt⌉).toNat).map
          (fun i : ℕ => (i : ℚ) * sysC4.dt) :=
  C4_grid sysC4 (fun _ => (29 : ℚ)) [] (by decide) (by decide)

/-- Counterexample to claim C5: sysC5 violates the mass invariant (m at
minus one), yet simulate raises nothing, executes its two grid steps
and mutates the velocity state (the first logged speed is not zero). -/
theorem C5_no_error_counterexample :
    sysC5.m ≤ 0 ∧
    (simulate sysC5 (fun _ => sysC5.v_desired) []).length = 2 ∧
    ((simulate sysC5 (fun _ => sysC5.v_desired) []).map
        TraceRecord.speed).head? ≠ some 0 :=
  ⟨by decide, by decide, by decide⟩

/-- Claim C5 as amended: the code performs no configuration validation
and has no ConfigurationError; for an invariant-violating configuration
with a nonzero time step, simulate raises nothing and produces its full
grid of records exactly as for a valid configuration, and for a zero
time step the run fails with the ZeroDivisionError of arange during
grid construction - an arithmetic failure, not an eager configuration
check, and it happens before any step runs or any state is touched. -/
theorem C5_no_validation (sys : CruiseControlSystem)
    (reference_speed : ℚ → ℚ) (disturbances : List (ℚ → ℚ))
    (hviol : sys.m ≤ 0 ∨ sys.tau_engine ≤ 0 ∨ sys.dt ≤ 0 ∨
      sys.throttle_max ≤ sys.throttle_min ∨ sys.T_sim ≤ 0) :
    (sys.dt ≠ 0 →
      simulateE sys reference_speed disturbances
        = Except.ok (simulate sys reference_speed disturbances) ∧
      (simulate sys reference_speed disturbances).length
        = n_steps sys.T_sim sys.dt) ∧
    (sys.dt = 0 →
      simulateE sys reference_speed disturbances
        = Except.error SimError.zeroDivisionError) := by
  constructor
  · intro hne
    refine ⟨?_, simulate_length sys reference_speed disturbances⟩
    unfold simulateE
    rw [if_neg hne]
  · intro hz
    unfold simulateE
    rw [if_pos hz]

/-- Witness for the amended C5: the invalid-mass system runs its full
grid without error, and the zero-step system fails with the arange
error. -/
theorem C5_no_validation_witness :
    (simulateE sysC5 (fun _ => (29 : ℚ)) []
        = Except.ok (simulate sysC5 (fun _ => (29 : ℚ)) []) ∧
      (simulate sysC5 (fun _ => (29 : ℚ)) []).length
        = n_steps sysC5.T_sim sysC5.dt) ∧
    simulateE sysC5z (fun _ => (29 : ℚ)) []
      = Except.error SimError.zeroDivisionError :=
  ⟨(C5_no_validation sysC5 (fun _ => (29 : ℚ)) [] (Or.inl (by decide))).1
      (by decide),
   (C5_no_validation sysC5z (fun _ => (29 : ℚ)) []
      (Or.inr (Or.inr (Or.inl (by decide))))).2 (by decide)⟩

/-- Claim C6: engine_model with command u returns the previous state
plus (Kv u minus the state) times dt over tau, and stores exactly that
value as the new engine state. -/
theorem C6_engine_update (sys : CruiseControlSystem) (u : ℚ)
    (htau : 0 < sys.tau_engine) :
    (engine_model sys u).1
      = sys.engine_state
        + (sys.Kv * u - sys.engine_state) * sys.dt / sys.tau_engine ∧
    (engine_model sys u).2.engine_state = (engine_model sys u).1 ∧
    (engine_model sys u).2
      = { sys with engine_state := sys.engine_state
            + (sys.Kv * u - sys.engine_state) * sys.dt / sys.tau_engine } :=
  ⟨rfl, rfl, rfl⟩

/-- Witness for C6 at the default system and command one. -/
theorem C6_engine_update_witness :
    (engine_model initSystem 1).1
      = initSystem.engine_state
        + (initSystem.Kv * 1 - initSystem.engine_state) * initSystem.dt
            / initSystem.tau_engine ∧
    (engine_model initSystem 1).2.engine_state = (engine_model initSystem 1).1 ∧
    (engine_model initSystem 1).2
      = { initSystem with engine_state := initSystem.engine_state
            + (initSystem.Kv * 1 - initSystem.engine_state) * initSystem.dt
                / initSystem.tau_engine } :=
  C6_engine_update initSystem 1 (by decide)

/-- Claim C7: vehicle_model with drive force F and disturbance D
returns the previous velocity plus (F - b v + D) / m times dt, and
stores exactly that value as the new velocity. -/
theorem C7_vehicle_update (sys : CruiseControlSystem) (F D : ℚ)
    (hm : 0 < sys.m) :
    (vehicle_model sys F D).1
      = sys.v_current
        + (F - sys.b * sys.v_current + D) / sys.m * sys.dt ∧
    (vehicle_model sys F D).2.v_current = (vehicle_model sys F D).1 ∧
    (vehicle_model sys F D).2
      = { sys with v_current := sys.v_current
            + (F - sys.b * sys.v_current + D) / sys.m * sys.dt } :=
  ⟨rfl, rfl, rfl⟩

/-- Witness for C7 at the default system, drive force 10 and
disturbance 2. -/
theorem C7_vehicle_update_witness :
    (vehicle_model initSystem 10 2).1
      = initSystem.v_current
        + (10 - initSystem.b * initSystem.v_current + 2) / initSystem.m
            * initSystem.dt ∧
    (vehicle_model initSystem 10 2).2.v_current
      = (vehicle_model initSystem 10 2).1 ∧
    (vehicle_model initSystem 10 2).2
      = { initSystem with v_current := initSystem.v_current
            + (10 - initSystem.b * initSystem.v_current + 2) / initSystem.m
                * initSystem.dt } :=
  C7_vehicle_update initSystem 10 2 (by decide)

/-- Under equal configuration attributes, reset_states yields equal
objects. -/
theorem reset_states_params_eq (s1 s2 : CruiseControlSystem)
    (h : sameParams s1 s2) : reset_states s1 = reset_states s2 := by
  obtain ⟨hm, hb, hKv, htau, hv, hKp, hKi, hKd, hmax, hmin, hdt, hT⟩ := h
  unfold reset_states
  ext <;> simp [hm, hb, hKv, htau, hv, hKp, hKi, hKd, hmax, hmin, hdt, hT]

/-- Claim C8: runs on two objects with identical configuration produce
identical trace sequences, whatever state the objects carried before,
because simulate first resets every state attribute to zero. -/
theorem C8_determinism (s1 s2 : CruiseControlSystem)
    (reference_speed : ℚ → ℚ) (disturbances : List (ℚ → ℚ))
    (h : sameParams s1 s2) :
    simulate s1 reference_speed disturbances
      = simulate s2 reference_speed disturbances ∧
    (reset_states s1).v_current = 0 ∧ (reset_states s1).throttle = 0 ∧
    (reset_states s1).error_integral = 0 ∧
    (reset_states s1).error_prev = 0 ∧
    (reset_states s1).engine_state = 0 ∧
    (reset_states s1).vehicle_state = 0 := by
  refine ⟨?_, rfl, rfl, rfl, rfl, rfl, rfl⟩
  have heq := reset_states_params_eq s1 s2 h
  obtain ⟨hm, hb, hKv, htau, hv, hKp, hKi, hKd, hmax, hmin, hdt, hT⟩ := h
  unfold simulate
  rw [heq, hdt, hT]

/-- Witness for C8: a dirty-state copy of the default system runs to
the same trace as the freshly constructed system. -/
theorem C8_determinism_witness :
    simulate sysC8 (fun _ => (29 : ℚ)) []
      = simulate initSystem (fun _ => (29 : ℚ)) [] :=
  (C8_determinism sysC8 initSystem (fun _ => (29 : ℚ)) [] (by decide)).1

/-- The two-element disturbance sum splits into the two singleton
sums. -/
theorem dist_force_pair (f1 f2 : ℚ → ℚ) (t : ℚ) :
    dist_force [f1, f2] t = dist_force [f1] t + dist_force [f2] t := by
  simp only [dist_force, List.foldl]
  ring

/-- One step with the two-element disturbance collection equals one
step with the single summed disturbance function. -/
theorem simStep_dist_sum (reference_speed : ℚ → ℚ) (f1 f2 : ℚ → ℚ)
    (sys : CruiseControlSystem) (t : ℚ) :
    simStep reference_speed [f1, f2] sys t
      = simStep reference_speed [fun u => f1 u + f2 u] sys t := by
  simp only [simStep, dist_force, List.foldl, zero_add]

/-- The loop with the two-element disturbance collection equals the
loop with the single summed disturbance function. -/
theorem runSteps_dist_sum (reference_speed : ℚ → ℚ) (f1 f2 : ℚ → ℚ)
    (ts : List ℚ) :
    ∀ sys : CruiseControlSystem,
      runSteps reference_speed [f1, f2] sys ts
        = runSteps reference_speed [fun u => f1 u + f2 u] sys ts := by
  induction ts with
  | nil => intro sys; rfl
  | cons t ts ih =>
    intro sys
    simp only [runSteps, simStep_dist_sum, ih]

/-- Claim C9: the effective disturbance at each step is the sum of the
collection (empty sum zero), and a run under the pair f1, f2 equals the
run under their pointwise sum, which is the superposition property. -/
theorem C9_disturbance_superposition (sys : CruiseControlSystem)
    (reference_speed : ℚ → ℚ) (f1 f2 : ℚ → ℚ) (t : ℚ) :
    dist_force [] t = 0 ∧
    dist_force [f1, f2] t = dist_force [f1] t + dist_force [f2] t ∧
    simulate sys reference_speed [f1, f2]
      = simulate sys reference_speed [fun u => f1 u + f2 u] :=
  ⟨rfl, dist_force_pair f1 f2 t, by
    unfold simulate
    rw [runSteps_dist_sum]⟩

/-- Claim C10: every pid_controller call stores the current error into
error_prev, saturated or not (the command returned is the clip of the
p, i and d terms with the derivative term taken before the update);
the rollback touches only error_integral, every other state attribute
is unchanged; after reset_states the previous error is zero, so the
first derivative term is Kd times (first error minus zero) over dt. -/
theorem C10_error_prev_frame (sys : CruiseControlSystem) (error e0 : ℚ) :
    (pid_controller sys error).2.error_prev = error ∧
    (pid_controller sys error).1
      = clip (sys.Kp * error + sys.Ki * (sys.error_integral + error * sys.dt)
          + pid_d_term sys error) sys.throttle_min sys.throttle_max ∧
    (pid_controller sys error).2.v_current = sys.v_current ∧
    (pid_controller sys error).2.throttle = sys.throttle ∧
    (pid_controller sys error).2.engine_state = sys.engine_state ∧
    (pid_controller sys error).2.vehicle_state = sys.vehicle_state ∧
    (reset_states sys).error_prev = 0 ∧
    pid_d_term (reset_states sys) e0 = sys.Kd * (e0 - 0) / sys.dt :=
  ⟨rfl, rfl, rfl, rfl, rfl, rfl, rfl, rfl⟩
